import Mathlib

/-!
Verification development for the uptime-monitor core (Cloudflare Worker).

The JavaScript source under `src/workers/monitoring/` is shallowly embedded:
pure computations become Lean functions, the database-mediated state of one
monitor becomes an explicit state record threaded through step functions, and
external effects (HTTP fetches, the KV store, wall-clock reads) become explicit
parameters.  Timestamps are modeled as integers: epoch seconds where the source
compares `strftime` values (incidents), epoch milliseconds where the source
subtracts JavaScript `Date` objects (downtime sweeps), and calendar day numbers
where the source compares SQL `date(...)` values (daily statistics).
JavaScript strings are manipulated through structural functions on `List Char`
so that every definition evaluates inside the kernel.
-/

/-! ## JavaScript string primitives -/

/-- Model of JavaScript `String.prototype.split(sep)` for a one-character
separator, over the character list of the string. -/
def splitOnChar (sep : Char) : List Char → List (List Char)
  | [] => [[]]
  | c :: rest =>
    let r := splitOnChar sep rest
    if c = sep then [] :: r
    else
      match r with
      | [] => [[c]]
      | h :: t => (c :: h) :: t

/-- Model of JavaScript `String.prototype.trim()`. -/
def jsTrim (l : List Char) : List Char :=
  ((l.dropWhile Char.isWhitespace).reverse.dropWhile Char.isWhitespace).reverse

/-- Numeric value of a list of decimal digit characters. -/
def digitsVal (l : List Char) : ℕ :=
  l.foldl (fun n c => n * 10 + (c.toNat - 48)) 0

/-- Leading-digit parse used by `jsParseInt`: JavaScript `parseInt` reads the
longest prefix of decimal digits and yields `NaN` (here `none`) if it is
empty. -/
def parseDigits (l : List Char) : Option ℕ :=
  let ds := l.takeWhile Char.isDigit
  if ds.isEmpty then none else some (digitsVal ds)

/-- Model of JavaScript `parseInt(s.trim())` on base-10 input: an optional
sign followed by the longest run of digits; `none` stands for `NaN`. -/
def jsParseInt (l : List Char) : Option ℤ :=
  match jsTrim l with
  | [] => none
  | c :: rest =>
    if c = '-' then (parseDigits rest).map (fun n => -(n : ℤ))
    else if c = '+' then (parseDigits rest).map (fun n => (n : ℤ))
    else (parseDigits (c :: rest)).map (fun n => (n : ℤ))

/-- Does `pat` occur at the head of `l`? -/
def startsList (pat l : List Char) : Bool :=
  match pat, l with
  | [], _ => true
  | _ :: _, [] => false
  | p :: pt, c :: ct => p = c && startsList pt ct

/-- Does `pat` occur anywhere inside `l`?  Models JavaScript
`String.prototype.includes`. -/
def segIn (pat : List Char) : List Char → Bool
  | [] => startsList pat []
  | c :: t => startsList pat (c :: t) || segIn pat t

/-- JavaScript `a.includes(b)` on strings. -/
def containsSub (s sub : String) : Bool := segIn sub.data s.data

/-- JavaScript `Math.round` on an exact rational: round half towards
positive infinity. -/
def jsRound (q : ℚ) : ℤ := ⌊q + 1 / 2⌋

/-! ## Core data model (`src/workers/monitoring/checker.js`) -/

/-- Status of a check result or of the remembered previous check.  The
source stores these as strings; `unknown` is the default used by
`handleStatusChange` when no previous check row exists. -/
inductive CStatus where
  | up
  | down
  | error
  | timeout
  | unknown
deriving DecidableEq

/-- The string label the source would store for a status. -/
def CStatus.label : CStatus → String
  | .up => "up"
  | .down => "down"
  | .error => "error"
  | .timeout => "timeout"
  | .unknown => "unknown"

/-- The test `currentStatus === 'down' || currentStatus === 'error' ||
currentStatus === 'timeout'` from `handleStatusChange`. -/
def CStatus.isNonUp : CStatus → Bool
  | .down => true
  | .error => true
  | .timeout => true
  | _ => false

/-- One probe outcome, as persisted into `monitor_checks`.  `checked_at` is an
integer timestamp. -/
structure CheckResult where
  status : CStatus
  response_time_ms : Option ℚ
  status_code : Option ℤ
  error_message : Option String
  checked_at : ℤ
  region : String
deriving DecidableEq

/-- A monitor row, restricted to the fields the embedded functions read or
write. -/
structure Monitor where
  id : ℕ
  name : String
  type : String
  is_active : Bool
  expected_status_codes : Option String
  timeout_seconds : ℤ
  uptime_30d : ℚ
  uptime_7d : ℚ
  avg_response_time_30d : ℚ
  stats_updated_at : Option ℤ
deriving DecidableEq

/-! ## `parseStatusCodes` (checker.js lines 503-521) -/

/-- Emit `n` consecutive integers starting at `a`. -/
def rangeIntsGo : ℤ → ℕ → List ℤ
  | _, 0 => []
  | a, n + 1 => a :: rangeIntsGo (a + 1) n

/-- The loop `for (let i = start; i <= end; i++) result.push(i)`: the integers from
`a` to `b` inclusive, empty when `b < a`. -/
def rangeInts (a b : ℤ) : List ℤ := rangeIntsGo a (b + 1 - a).toNat

/-- Function `parseStatusCodes` from checker.js: `null`/empty input falls back to
`[200]`; otherwise split on commas, expand `lo-hi` parts into inclusive
ranges, and parse single parts.  A part whose `parseInt` yields `NaN`
contributes nothing that can match an integer status code: a `NaN` range
bound makes the `for` loop body never run, and a pushed `NaN` element is
never equal to a numeric response status, so it is dropped here. -/
def parseStatusCodes (codes : Option String) : List ℤ :=
  match codes with
  | none => [200]
  | some s =>
    if s = "" then [200]
    else
      (splitOnChar ',' s.data).foldl (fun acc part =>
        if part.contains '-' then
          match splitOnChar '-' part with
          | ps :: pe :: _ =>
            match jsParseInt ps, jsParseInt pe with
            | some a, some b => acc ++ rangeInts a b
            | _, _ => acc
          | _ => acc
        else
          match jsParseInt part with
          | some v => acc ++ [v]
          | none => acc) []

/-! ## `checkHTTP` (checker.js lines 58-126) -/

/-- The outcome of the transport `fetch` call inside `checkHTTP`: either a
response with a status code, or a thrown error carrying the error's `name`
and `message`. -/
inductive FetchOutcome where
  | ok (statusCode : ℤ)
  | err (name message : String)
deriving DecidableEq

/-- Function `checkHTTP` from checker.js, given the transport outcome, the measured
response time and the current clock.  The success branch classifies the
response code against `parseStatusCodes`; the catch branch rewrites timeout
messages and always reports status `timeout`. -/
def checkHTTP (m : Monitor) (outcome : FetchOutcome) (responseTime : ℚ) (now : ℤ) :
    CheckResult :=
  match outcome with
  | .ok code =>
    let expectedCodes := parseStatusCodes m.expected_status_codes
    let isStatusOk := expectedCodes.contains code
    { status := if isStatusOk then .up else .down
      response_time_ms := some responseTime
      status_code := some code
      error_message :=
        if isStatusOk then none else some ("Unexpected status code: " ++ toString code)
      checked_at := now
      region := "cf-auto" }
  | .err name message =>
    let errorMessage :=
      if name = "AbortError" || containsSub message "timeout" then
        "Request timeout after " ++ toString m.timeout_seconds ++ "s"
      else message
    { status := .timeout
      response_time_ms := some responseTime
      status_code := none
      error_message := some errorMessage
      checked_at := now
      region := "cf-auto" }

/-! ## Claims C8 and C3 -/

theorem list_contains_iff (l : List ℤ) (a : ℤ) : l.contains a = true ↔ a ∈ l := by
  simp

theorem mem_rangeIntsGo : ∀ (n : ℕ) (a c : ℤ), c ∈ rangeIntsGo a n ↔ a ≤ c ∧ c < a + n
  | 0, a, c => by simp [rangeIntsGo]
  | n + 1, a, c => by
    rw [rangeIntsGo]
    simp only [List.mem_cons, mem_rangeIntsGo n (a + 1) c]
    omega

theorem mem_rangeInts (a b c : ℤ) : c ∈ rangeInts a b ↔ a ≤ c ∧ c ≤ b := by
  rw [rangeInts, mem_rangeIntsGo]
  omega

/-- Claim C8: `parseStatusCodes("200-299,304")` returns exactly the codes
200, 201, ..., 299 followed by 304 — comma-separated parts and inclusive
ranges are expanded — and `parseStatusCodes(null)` returns exactly `[200]`. -/
theorem parseStatusCodes_ranges_and_default :
    parseStatusCodes (some "200-299,304") = rangeInts 200 299 ++ [304]
    ∧ (∀ c : ℤ, c ∈ parseStatusCodes (some "200-299,304") ↔
        ((200 ≤ c ∧ c ≤ 299) ∨ c = 304))
    ∧ parseStatusCodes none = [200] := by
  refine ⟨by decide, ?_, by decide⟩
  intro c
  have h : parseStatusCodes (some "200-299,304") = rangeInts 200 299 ++ [304] := by
    decide
  rw [h]
  simp [List.mem_append, mem_rangeInts]

/-- Claim C3, counterexample to the final clause: a transport failure that is
not a timeout (error name `TypeError`, message `connection refused`) still
yields status `timeout` from `checkHTTP`, not `down` or `error`. -/
theorem checkHTTP_transport_failure_counterexample :
    (checkHTTP ⟨1, "m", "http", true, some "200-299", 30, 0, 0, 0, none⟩
        (.err "TypeError" "connection refused") 5 0).status = .timeout
    ∧ CStatus.timeout ≠ CStatus.down ∧ CStatus.timeout ≠ CStatus.error := by
  decide

/-- Claim C3 as amended: for an http/https monitor the success branch returns
`up` iff the response code is in the parsed expected set, with a null error
message exactly then and otherwise status `down` with the unexpected code in
the message (the concrete 404-against-"200-299" scenario included); and every
transport failure — timeout or otherwise — yields status `timeout`. -/
theorem checkHTTP_classification (m : Monitor) (code : ℤ) (rt : ℚ) (now : ℤ)
    (name message : String) :
    ((checkHTTP m (.ok code) rt now).status = .up ↔
      code ∈ parseStatusCodes m.expected_status_codes)
    ∧ ((checkHTTP m (.ok code) rt now).error_message =
        if code ∈ parseStatusCodes m.expected_status_codes then none
        else some ("Unexpected status code: " ++ toString code))
    ∧ ((checkHTTP m (.ok code) rt now).status = .up ∨
        (checkHTTP m (.ok code) rt now).status = .down)
    ∧ (checkHTTP m (.err name message) rt now).status = .timeout
    ∧ (checkHTTP ⟨1, "m", "http", true, some "200-299", 30, 0, 0, 0, none⟩
          (.ok 404) 5 0).status = .down
    ∧ containsSub
        ((checkHTTP ⟨1, "m", "http", true, some "200-299", 30, 0, 0, 0, none⟩
          (.ok 404) 5 0).error_message.getD "") "404" = true := by
  have hmem := list_contains_iff (parseStatusCodes m.expected_status_codes) code
  refine ⟨?_, ?_, ?_, rfl, by decide, by decide⟩
  · by_cases h : (parseStatusCodes m.expected_status_codes).contains code
    · simp [checkHTTP, h, hmem.mp h]
    · have h2 : code ∉ parseStatusCodes m.expected_status_codes := fun hc =>
        h (hmem.mpr hc)
      simp [checkHTTP, h, h2]
  · by_cases h : (parseStatusCodes m.expected_status_codes).contains code
    · simp [checkHTTP, h, hmem.mp h]
    · have h2 : code ∉ parseStatusCodes m.expected_status_codes := fun hc =>
        h (hmem.mpr hc)
      simp [checkHTTP, h, h2]
  · by_cases h : (parseStatusCodes m.expected_status_codes).contains code
    · left; simp [checkHTTP, h, hmem.mp h]
    · have h2 : code ∉ parseStatusCodes m.expected_status_codes := fun hc =>
        h (hmem.mpr hc)
      right; simp [checkHTTP, h, h2]

/-! ## Incident state machine (checker.js lines 397-462)

The durable per-monitor state consists of the status of the most recent
persisted check row (`unknown` when none exists, matching the
`lastCheck?.status || 'unknown'` fallback) and the monitor's incident rows.
`handleStatusChange` runs right after `saveCheckResult`, so one step of the
machine both applies the incident logic and makes the just-saved result the
new "previous check". -/

/-- An `incidents` table row for one monitor. -/
structure Incident where
  status : String
  started_at : ℤ
  cause : String
  resolved_at : Option ℤ
  duration_seconds : Option ℤ
deriving DecidableEq

/-- Durable state of a single monitor: previous-check status plus incident
rows. -/
structure MonState where
  lastStatus : CStatus
  incidents : List Incident
deriving DecidableEq

/-- Fresh monitor: no checks recorded, no incidents. -/
def initialMonState : MonState := ⟨.unknown, []⟩

/-- Function `createIncident` from checker.js: INSERT a new open incident with
status `investigating`, `started_at = result.checked_at` and
`cause = error_message || "Monitor status: <status>"`. -/
def createIncident (r : CheckResult) (incidents : List Incident) : List Incident :=
  incidents ++
    [{ status := "investigating"
       started_at := r.checked_at
       cause := r.error_message.getD ("Monitor status: " ++ r.status.label)
       resolved_at := none
       duration_seconds := none }]

/-- Function `resolveIncident` from checker.js: UPDATE every incident row of the
monitor with `resolved_at IS NULL`, setting status `resolved`,
`resolved_at = now` and `duration_seconds = now - started_at` (the
`strftime` difference in seconds). -/
def resolveIncident (now : ℤ) (incidents : List Incident) : List Incident :=
  incidents.map (fun i =>
    if i.resolved_at = none then
      { i with status := "resolved", resolved_at := some now,
               duration_seconds := some (now - i.started_at) }
    else i)

/-- One step of `handleStatusChange` from checker.js, fused with the fact
that `saveCheckResult` has just made `r` the monitor's latest check: compare
the previous status with the new one; on a change to `down`/`error`/`timeout`
open an incident, on a change to `up` from a non-up status resolve the open
incidents, and in every case `r.status` becomes the next step's previous
status. -/
def handleStatusChange (now : ℤ) (r : CheckResult) (s : MonState) : MonState :=
  let currentStatus := r.status
  let incidents :=
    if s.lastStatus ≠ currentStatus then
      if currentStatus.isNonUp then createIncident r s.incidents
      else if currentStatus = .up ∧ s.lastStatus.isNonUp then
        resolveIncident now s.incidents
      else s.incidents
    else s.incidents
  { lastStatus := currentStatus, incidents := incidents }

/-- Process a sequence of check results one at a time (single writer per
monitor); each entry carries the wall clock `now` observed while handling
it. -/
def runChecks (steps : List (ℤ × CheckResult)) (s : MonState) : MonState :=
  steps.foldl (fun s p => handleStatusChange p.1 p.2 s) s

/-- Number of incident rows with `resolved_at IS NULL`. -/
def openIncidentCount (s : MonState) : ℕ :=
  (s.incidents.filter (fun i => i.resolved_at.isNone)).length

theorem openIncidentCount_createIncident (r : CheckResult) (s : MonState) :
    (List.filter (fun i => i.resolved_at.isNone) (createIncident r s.incidents)).length
      = openIncidentCount s + 1 := by
  simp [createIncident, openIncidentCount, List.filter_append]

theorem openIncidentCount_resolveIncident (now : ℤ) (l : List Incident) :
    (List.filter (fun i => i.resolved_at.isNone) (resolveIncident now l)).length = 0 := by
  induction l with
  | nil => simp [resolveIncident]
  | cons i t ih =>
    simp only [resolveIncident, List.map_cons] at ih ⊢
    by_cases h : i.resolved_at = none <;> simp [h, ih]

/-- Strengthened invariant for the incident machine: at most one open
incident, and none at all while the previous status is `up` or `unknown`. -/
def IncidentInv (s : MonState) : Prop :=
  openIncidentCount s ≤ 1 ∧
    ((s.lastStatus = .up ∨ s.lastStatus = .unknown) → openIncidentCount s = 0)

/-- Side condition on one step: a result that moves into a non-up status
from a non-up status must carry the same status (no `down → error` style
changes between distinct non-up statuses). -/
def NoDownTypeChange (prev : CStatus) (r : CheckResult) : Prop :=
  r.status.isNonUp = true → prev.isNonUp = true → prev = r.status

instance (prev : CStatus) (r : CheckResult) : Decidable (NoDownTypeChange prev r) :=
  inferInstanceAs
    (Decidable (r.status.isNonUp = true → prev.isNonUp = true → prev = r.status))

theorem handleStatusChange_lastStatus (now : ℤ) (r : CheckResult) (s : MonState) :
    (handleStatusChange now r s).lastStatus = r.status := rfl

theorem handleStatusChange_incidents (now : ℤ) (r : CheckResult) (s : MonState) :
    (handleStatusChange now r s).incidents =
      (if s.lastStatus ≠ r.status then
        if r.status.isNonUp = true then createIncident r s.incidents
        else if r.status = .up ∧ s.lastStatus.isNonUp = true then
          resolveIncident now s.incidents
        else s.incidents
      else s.incidents) := rfl

theorem openIncidentCount_eq (s : MonState) :
    openIncidentCount s = (s.incidents.filter (fun i => i.resolved_at.isNone)).length := rfl

theorem incidentInv_step (now : ℤ) (r : CheckResult) (s : MonState)
    (hInv : IncidentInv s) (hR : r.status ≠ .unknown)
    (hSide : NoDownTypeChange s.lastStatus r) :
    IncidentInv (handleStatusChange now r s) := by
  obtain ⟨hLe, hZero⟩ := hInv
  by_cases hNe : s.lastStatus ≠ r.status
  · by_cases hNonUp : r.status.isNonUp = true
    · have hPrevUp : s.lastStatus = .up ∨ s.lastStatus = .unknown := by
        by_cases hPrev : s.lastStatus.isNonUp = true
        · exact absurd (hSide hNonUp hPrev) hNe
        · rcases hl : s.lastStatus with _ | _ | _ | _ | _ <;> simp_all [CStatus.isNonUp]
      have h0 : openIncidentCount s = 0 := hZero hPrevUp
      constructor
      · rw [openIncidentCount_eq, handleStatusChange_incidents,
            if_pos hNe, if_pos hNonUp, openIncidentCount_createIncident r s, h0]
      · intro hup
        rw [handleStatusChange_lastStatus] at hup
        rcases hup with h | h
        · rw [h] at hNonUp
          exact absurd hNonUp (by simp [CStatus.isNonUp])
        · exact absurd h hR
    · by_cases hUp : r.status = .up ∧ s.lastStatus.isNonUp = true
      · constructor
        · rw [openIncidentCount_eq, handleStatusChange_incidents,
              if_pos hNe, if_neg hNonUp, if_pos hUp, openIncidentCount_resolveIncident]
          omega
        · intro _
          rw [openIncidentCount_eq, handleStatusChange_incidents,
              if_pos hNe, if_neg hNonUp, if_pos hUp, openIncidentCount_resolveIncident]
      · have hcurUp : r.status = .up := by
          rcases hr : r.status with _ | _ | _ | _ | _ <;> simp_all [CStatus.isNonUp]
        have hPrevNotNonUp : s.lastStatus.isNonUp ≠ true := fun hh => hUp ⟨hcurUp, hh⟩
        have hPrevUp : s.lastStatus = .up ∨ s.lastStatus = .unknown := by
          rcases hl : s.lastStatus with _ | _ | _ | _ | _ <;> simp_all [CStatus.isNonUp]
        have h0 : openIncidentCount s = 0 := hZero hPrevUp
        constructor
        · rw [openIncidentCount_eq, handleStatusChange_incidents,
              if_pos hNe, if_neg hNonUp, if_neg hUp]
          rw [openIncidentCount_eq] at h0
          omega
        · intro _
          rw [openIncidentCount_eq, handleStatusChange_incidents,
              if_pos hNe, if_neg hNonUp, if_neg hUp]
          rw [openIncidentCount_eq] at h0
          exact h0
  · constructor
    · rw [openIncidentCount_eq, handleStatusChange_incidents, if_neg hNe]
      rw [openIncidentCount_eq] at hLe
      exact hLe
    · intro hup
      rw [handleStatusChange_lastStatus] at hup
      push_neg at hNe
      rw [openIncidentCount_eq, handleStatusChange_incidents,
          if_neg (fun h => h hNe)]
      rw [openIncidentCount_eq] at hZero
      exact hZero (by rw [hNe]; exact hup)

theorem incidentInv_runChecks :
    ∀ (steps : List (ℤ × CheckResult)) (s : MonState),
      IncidentInv s →
      (∀ p ∈ steps, p.2.status ≠ CStatus.unknown) →
      List.Chain' (fun p q => NoDownTypeChange p.2.status q.2) steps →
      (∀ q ∈ steps.head?, NoDownTypeChange s.lastStatus q.2) →
      IncidentInv (runChecks steps s)
  | [], s, hInv, _, _, _ => hInv
  | p :: rest, s, hInv, hKnown, hChain, hHead => by
    have hstep : IncidentInv (handleStatusChange p.1 p.2 s) :=
      incidentInv_step p.1 p.2 s hInv (hKnown p (List.mem_cons_self p rest))
        (hHead p (by simp))
    have hconsParts := List.chain'_cons'.mp hChain
    have hrest := incidentInv_runChecks rest (handleStatusChange p.1 p.2 s) hstep
      (fun q hq => hKnown q (List.mem_cons_of_mem p hq))
      hconsParts.2
      (fun q hq => by
        rw [handleStatusChange_lastStatus]
        exact hconsParts.1 q hq)
    simpa [runChecks, List.foldl_cons] using hrest

/-- Claim C1, counterexample: starting from a fresh monitor, recording
`down` and then `error` (a change between two distinct non-up statuses)
makes `handleStatusChange` open a second incident while the first is still
unresolved — two rows with `resolved_at IS NULL` exist afterwards. -/
theorem handleStatusChange_opens_second_incident :
    openIncidentCount (runChecks
      [(1, ⟨.down, none, none, none, 0, "cf-auto"⟩),
       (2, ⟨.error, none, none, none, 60, "cf-auto"⟩)] initialMonState) = 2 := by
  decide

/-- Claim C1 as amended: processing any sequence of check results one at a
time with `handleStatusChange` keeps at most one incident with
`resolved_at IS NULL`, provided no result carries the artificial `unknown`
status and consecutive non-up results always carry the same status (every
move into a non-up status comes from `up` or `unknown`); without the latter
restriction a `down → error` change opens a second incident. -/
theorem atMostOneOpenIncident (steps : List (ℤ × CheckResult))
    (hKnown : ∀ p ∈ steps, p.2.status ≠ CStatus.unknown)
    (hChain : List.Chain' (fun p q => NoDownTypeChange p.2.status q.2) steps) :
    openIncidentCount (runChecks steps initialMonState) ≤ 1 := by
  have hInv0 : IncidentInv initialMonState := by
    constructor <;> simp [initialMonState, openIncidentCount]
  have hHead : ∀ q ∈ ([] : List (ℤ × CheckResult)) ++ steps |>.head?,
      NoDownTypeChange initialMonState.lastStatus q.2 := by
    intro q _ hnu hprev
    simp [initialMonState, CStatus.isNonUp] at hprev
  exact (incidentInv_runChecks steps initialMonState hInv0 hKnown hChain
    (by simpa using hHead)).1

theorem atMostOneOpenIncident_witness :
    openIncidentCount (runChecks
      [(1, ⟨.up, none, none, none, 0, "cf-auto"⟩),
       (2, ⟨.down, none, none, none, 60, "cf-auto"⟩),
       (3, ⟨.down, none, none, none, 120, "cf-auto"⟩),
       (4, ⟨.up, none, none, none, 180, "cf-auto"⟩)] initialMonState) ≤ 1 :=
  atMostOneOpenIncident _ (by decide)
    (by simp [List.chain'_cons, List.chain'_singleton, NoDownTypeChange, CStatus.isNonUp])

/-- Claim C2: for the status sequence `[up, down, down, up]`, exactly one
incident exists after the run: it is opened at the first `down` with status
`investigating`, `started_at` equal to that result's `checked_at` and
`cause` equal to its error message (or "Monitor status: down" when null),
and it is closed at the final `up` with `resolved_at` set to the clock
observed then and `duration_seconds` equal to `resolved_at - started_at`. -/
theorem incident_lifecycle_up_down_down_up (t1 t2 t3 t4 n1 n2 n3 n4 : ℤ)
    (m1 m2 m3 m4 : Option String) :
    runChecks [(n1, ⟨.up, none, none, m1, t1, "cf-auto"⟩),
               (n2, ⟨.down, none, none, m2, t2, "cf-auto"⟩)] initialMonState
      = ⟨.down, [⟨"investigating", t2, m2.getD "Monitor status: down", none, none⟩]⟩
    ∧ runChecks [(n1, ⟨.up, none, none, m1, t1, "cf-auto"⟩),
               (n2, ⟨.down, none, none, m2, t2, "cf-auto"⟩),
               (n3, ⟨.down, none, none, m3, t3, "cf-auto"⟩),
               (n4, ⟨.up, none, none, m4, t4, "cf-auto"⟩)] initialMonState
      = ⟨.up, [⟨"resolved", t2, m2.getD "Monitor status: down",
               some n4, some (n4 - t2)⟩]⟩ := by
  have hlbl : ("Monitor status: " ++ CStatus.label CStatus.down)
      = "Monitor status: down" := by decide
  constructor <;>
    simp [runChecks, handleStatusChange, createIncident, resolveIncident,
      initialMonState, CStatus.isNonUp, hlbl]

/-! ## Notification queueing (checker.js lines 464-501) -/

/-- One row of the `alert_contacts` join used by `queueNotifications`:
the contact's active flag plus its per-monitor `notify_on_down`,
`notify_on_up` and `delay_minutes` settings. -/
structure AlertContact where
  id : ℕ
  is_active : Bool
  notify_on_down : Bool
  notify_on_up : Bool
  delay_minutes : Option ℕ
deriving DecidableEq

/-- The notification payload written into the KV queue for one contact. -/
structure NotifyEvent where
  monitorId : ℕ
  monitorName : String
  contactId : ℕ
  status : CStatus
  previousStatus : CStatus
  delayMinutes : ℕ
deriving DecidableEq

/-- Payload construction inside the `shouldNotify` branch of
`queueNotifications` (`delayMinutes: contact.delay_minutes || 0`). -/
def mkNotifyEvent (m : Monitor) (c : AlertContact) (cur last : CStatus) : NotifyEvent :=
  ⟨m.id, m.name, c.id, cur, last, c.delay_minutes.getD 0⟩

/-- The `shouldNotify` decision of `queueNotifications`: notify when the
current status is non-up and the contact opted into down notices, else when
the current status is `up`, the previous was not, and the contact opted
into recovery notices. -/
def shouldNotify (c : AlertContact) (cur last : CStatus) : Bool :=
  if cur ≠ .up ∧ c.notify_on_down = true then true
  else if cur = .up ∧ last ≠ .up ∧ c.notify_on_up = true then true
  else false

/-- Function `queueNotifications` from checker.js: the SQL join keeps only contacts
with `is_active = 1`; each surviving contact is tested with `shouldNotify`
and, when eligible, one notification payload is queued for it. -/
def queueNotifications (m : Monitor) (contacts : List AlertContact)
    (cur last : CStatus) : List NotifyEvent :=
  ((contacts.filter (fun c => c.is_active)).filter
    (fun c => shouldNotify c cur last)).map (fun c => mkNotifyEvent m c cur last)

/-- Eligibility exactly as the specification words it: notified on a down
transition iff `notify_on_down` is enabled and the current status is not
`up`; notified on recovery iff `notify_on_up` is enabled, the current status
is `up` and the previous was not. -/
def eligibleSpec (c : AlertContact) (cur last : CStatus) : Prop :=
  (c.notify_on_down = true ∧ cur ≠ .up) ∨
    (c.notify_on_up = true ∧ cur = .up ∧ last ≠ .up)

instance (c : AlertContact) (cur last : CStatus) : Decidable (eligibleSpec c cur last) :=
  inferInstanceAs (Decidable (_ ∨ _))

theorem shouldNotify_iff_eligibleSpec (c : AlertContact) (cur last : CStatus) :
    shouldNotify c cur last = true ↔ eligibleSpec c cur last := by
  unfold shouldNotify eligibleSpec
  split_ifs with h1 h2 <;> simp <;> tauto

/-- Claim C6: a contact bound to the monitor receives a queued event iff it
is active and eligible per the specification's rule (down: `notify_on_down`
and current not `up`; recovery: `notify_on_up`, current `up`, previous not
`up`); in particular a contact with `notify_on_down = false` and
`notify_on_up = true` gets nothing on a down transition and exactly one
event on the subsequent recovery. -/
theorem queueNotifications_eligibility (m : Monitor) :
    (∀ (contacts : List AlertContact) (cur last : CStatus),
      queueNotifications m contacts cur last =
        ((contacts.filter (fun c => c.is_active)).filter
          (fun c => decide (eligibleSpec c cur last))).map
            (fun c => mkNotifyEvent m c cur last))
    ∧ (∀ (dm : Option ℕ) (i : ℕ),
        queueNotifications m [⟨i, true, false, true, dm⟩] .down .up = []
        ∧ queueNotifications m [⟨i, true, false, true, dm⟩] .up .down
            = [mkNotifyEvent m ⟨i, true, false, true, dm⟩ .up .down]) := by
  constructor
  · intro contacts cur last
    unfold queueNotifications
    congr 1
    apply List.filter_congr
    intro c _
    by_cases hE : eligibleSpec c cur last
    · simp [hE, (shouldNotify_iff_eligibleSpec c cur last).mpr hE]
    · have hS : shouldNotify c cur last = false := by
        rw [Bool.eq_false_iff]
        intro hS
        exact hE ((shouldNotify_iff_eligibleSpec c cur last).mp hS)
      rw [hS, decide_eq_false hE]
  · intro dm i
    constructor <;> simp [queueNotifications, shouldNotify, mkNotifyEvent]

/-! ## Incremental daily-stat upsert (checker.js lines 347-395) -/

/-- A `uptime_stats` row as maintained by `updateDailyStats` in checker.js
(the incremental path; the nightly aggregator in statistics.js writes a
different column set, modeled separately below). -/
structure DRow where
  total_checks : ℤ
  successful_checks : ℤ
  avg_response_time_ms : ℚ
  min_response_time_ms : ℚ
  max_response_time_ms : ℚ
  uptime_percentage : Option ℚ
deriving DecidableEq

/-- Function `updateDailyStats` from checker.js, restricted to one (monitor, date)
row: the SQL upsert inserts `(1, up?, rt, rt, rt)` when no row exists, and
on conflict evaluates every SET expression against the pre-update row (SQL
semantics): `total_checks + 1`, `successful_checks + up?`,
`(avg * (total_checks - 1) + rt) / total_checks`, `MIN(min, rt)`,
`MAX(max, rt)`, with `rt = result.response_time_ms || 0`.  The follow-up
UPDATE then recomputes `uptime_percentage = successful/total * 100`. -/
def updateDailyStatsRow (existing : Option DRow) (r : CheckResult) : DRow :=
  let sInc : ℤ := if r.status = .up then 1 else 0
  let rt : ℚ := r.response_time_ms.getD 0
  let row : DRow :=
    match existing with
    | none => ⟨1, sInc, rt, rt, rt, none⟩
    | some e =>
      ⟨e.total_checks + 1, e.successful_checks + sInc,
       (e.avg_response_time_ms * ((e.total_checks : ℚ) - 1) + rt) / (e.total_checks : ℚ),
       min e.min_response_time_ms rt, max e.max_response_time_ms rt,
       e.uptime_percentage⟩
  { row with
      uptime_percentage := some ((row.successful_checks : ℚ) / (row.total_checks : ℚ) * 100) }

/-- Claim C7, failing input: a row holding one up check at 100ms receives a
second up check at 200ms.  The upsert increments the counters as claimed but
sets the average to 200 — the SET expression divides by the pre-update
`total_checks`, not the new count — while the claimed running-average
formula `(old_avg*(n-1) + new_rt)/n` yields 150.  A null response time is
likewise not excluded but coalesced to 0 (dragging the average and minimum
to 0), where the nightly recomputation in statistics.js uses only non-null
up samples. -/
theorem updateDailyStats_average_bug :
    (updateDailyStatsRow (some ⟨1, 1, 100, 100, 100, some 100⟩)
        ⟨.up, some 200, some 200, none, 0, "cf-auto"⟩).total_checks = 2
    ∧ (updateDailyStatsRow (some ⟨1, 1, 100, 100, 100, some 100⟩)
        ⟨.up, some 200, some 200, none, 0, "cf-auto"⟩).successful_checks = 2
    ∧ (updateDailyStatsRow (some ⟨1, 1, 100, 100, 100, some 100⟩)
        ⟨.up, some 200, some 200, none, 0, "cf-auto"⟩).avg_response_time_ms = 200
    ∧ ((100 : ℚ) * (2 - 1) + 200) / 2 = 150
    ∧ (200 : ℚ) ≠ 150
    ∧ (updateDailyStatsRow (some ⟨1, 1, 100, 100, 100, some 100⟩)
        ⟨.up, none, none, none, 0, "cf-auto"⟩).avg_response_time_ms = 0
    ∧ (updateDailyStatsRow (some ⟨1, 1, 100, 100, 100, some 100⟩)
        ⟨.up, none, none, none, 0, "cf-auto"⟩).min_response_time_ms = 0 := by
  refine ⟨rfl, rfl, by norm_num [updateDailyStatsRow], by norm_num, by norm_num,
    by norm_num [updateDailyStatsRow], ?_⟩
  show min (100 : ℚ) ((none : Option ℚ).getD 0) = 0
  norm_num

/-! ## Top-level dispatch (`runMonitoringCheck`, checker.js lines 3-56) -/

/-- The monitor kinds handled by the `switch` in `runMonitoringCheck`. -/
def supportedMonitorTypes : List String :=
  ["http", "https", "ping", "port", "keyword", "ssl", "heartbeat"]

/-- Observable outcome of one `runMonitoringCheck` call: the returned
result, the results persisted through `saveCheckResult`, and whether
`handleStatusChange` ran. -/
structure RunOutcome where
  result : CheckResult
  saved : List CheckResult
  statusChangeHandled : Bool
deriving DecidableEq

/-- Function `runMonitoringCheck` from checker.js.  For a supported type the
dispatched probe's result (`probe`, standing for the awaited check function
outcome) is saved and `handleStatusChange` runs.  For an unsupported type
the `switch` default throws `Unsupported monitor type: <type>`; the
surrounding catch builds an error result carrying that message with null
response time and status code, saves it, skips `handleStatusChange`, and
returns it — no exception escapes to the caller. -/
def runMonitoringCheck (m : Monitor) (probe : CheckResult) (now : ℤ) : RunOutcome :=
  if supportedMonitorTypes.contains m.type then
    { result := probe, saved := [probe], statusChangeHandled := true }
  else
    let errorResult : CheckResult :=
      { status := .error, response_time_ms := none, status_code := none
        error_message := some ("Unsupported monitor type: " ++ m.type)
        checked_at := now, region := "unknown" }
    { result := errorResult, saved := [errorResult], statusChangeHandled := false }

/-- Claim C9, counterexample: running a monitor of unsupported kind `dns`
does produce and persist a check result (an `error`-status row), and the
call returns normally — the cycle is not rejected or skipped without a
persisted result. -/
theorem runMonitoringCheck_unsupported_persists :
    (runMonitoringCheck ⟨1, "m", "dns", true, none, 30, 0, 0, 0, none⟩
        ⟨.up, some 1, some 200, none, 0, "cf-auto"⟩ 0).saved ≠ []
    ∧ (runMonitoringCheck ⟨1, "m", "dns", true, none, 30, 0, 0, 0, none⟩
        ⟨.up, some 1, some 200, none, 0, "cf-auto"⟩ 0).result.status = .error := by
  decide

/-- Claim C9 as amended: for a monitor whose kind is outside the supported
set, `runMonitoringCheck` catches the configuration error internally: it
persists and returns a check result with status `error`, message
`Unsupported monitor type: <type>`, null response time and status code, and
skips status-transition handling for that cycle; nothing is thrown, so the
batch continues with other monitors. -/
theorem runMonitoringCheck_unsupported_behavior (m : Monitor) (probe : CheckResult)
    (now : ℤ) (h : supportedMonitorTypes.contains m.type = false) :
    runMonitoringCheck m probe now =
      { result := ⟨.error, none, none,
          some ("Unsupported monitor type: " ++ m.type), now, "unknown"⟩
        saved := [⟨.error, none, none,
          some ("Unsupported monitor type: " ++ m.type), now, "unknown"⟩]
        statusChangeHandled := false } := by
  have h2 : m.type ∉ supportedMonitorTypes := by simpa using h
  simp [runMonitoringCheck, h2]

theorem runMonitoringCheck_unsupported_behavior_witness :
    runMonitoringCheck ⟨1, "m", "dns", true, none, 30, 0, 0, 0, none⟩
        ⟨.up, some 1, some 200, none, 0, "cf-auto"⟩ 7 =
      { result := ⟨.error, none, none, some ("Unsupported monitor type: " ++ "dns"),
          7, "unknown"⟩
        saved := [⟨.error, none, none, some ("Unsupported monitor type: " ++ "dns"),
          7, "unknown"⟩]
        statusChangeHandled := false } :=
  runMonitoringCheck_unsupported_behavior _ _ 7 (by decide)

/-! ## Statistics module (`src/workers/monitoring/statistics.js`)

Timestamps of `monitor_checks` rows are epoch milliseconds (JavaScript
`Date` arithmetic); dates of `uptime_stats` rows are day numbers (SQL
`date(...)` values), with `dateOf` bucketing a timestamp into its day. -/

/-- A `monitor_checks` row as read by the aggregator. -/
structure CheckRow where
  monitor_id : ℕ
  status : CStatus
  response_time_ms : Option ℚ
  checked_at : ℤ
deriving DecidableEq

/-- SQL `date(checked_at)` as a day bucket of an epoch-milliseconds
timestamp. -/
def dateOf (t : ℤ) : ℤ := t / 86400000

/-- An `uptime_stats` row as written by `calculateMonitorStats` in
statistics.js. -/
structure StatRow where
  monitor_id : ℕ
  date : ℤ
  total_checks : ℕ
  up_checks : ℕ
  down_checks : ℕ
  uptime_percentage : ℚ
  avg_response_time : ℚ
  min_response_time : ℚ
  max_response_time : ℚ
  downtime_duration : ℤ
  downtime_incidents : ℕ
deriving DecidableEq

/-- The test `check.status === 'down'` — the downtime sweep counts only `down`,
not `error`/`timeout`. -/
def isDownCheck (c : CheckRow) : Bool := c.status = CStatus.down

/-- Loop state of `calculateDowntime`: accumulated minutes, incident count,
the `isInDowntime` flag and the recorded down-run start timestamp. -/
structure DTState where
  total : ℚ
  incidents : ℕ
  isInDowntime : Bool
  downtimeStart : Option ℤ
deriving DecidableEq

/-- One iteration of the `calculateDowntime` loop. -/
def dtStep (s : DTState) (c : CheckRow) : DTState :=
  let isDown := isDownCheck c
  if isDown && !s.isInDowntime then
    { total := s.total, incidents := s.incidents + 1, isInDowntime := true
      downtimeStart := some c.checked_at }
  else if !isDown && s.isInDowntime then
    match s.downtimeStart with
    | some st =>
      { total := s.total + ((c.checked_at : ℚ) - (st : ℚ)) / 60000
        incidents := s.incidents, isInDowntime := false, downtimeStart := s.downtimeStart }
    | none => { s with isInDowntime := false }
  else s

/-- The epilogue of `calculateDowntime`: if the loop ended inside a down
run, charge the run from its recorded start up to the last check's
timestamp (`checks[checks.length - 1]`). -/
def dtFinalize (checks : List CheckRow) (s : DTState) : ℚ × ℕ :=
  (if s.isInDowntime then
    match s.downtimeStart, checks.getLast? with
    | some st, some lastC => s.total + ((lastC.checked_at : ℚ) - (st : ℚ)) / 60000
    | _, _ => s.total
  else s.total, s.incidents)

/-- Function `calculateDowntime` from statistics.js: forward pass over the day's
time-ordered checks, followed by charging an open trailing down run up to
the last check's time; the total is `Math.round`ed to whole minutes. -/
def calculateDowntime (checks : List CheckRow) : ℤ × ℕ :=
  let f := dtFinalize checks (checks.foldl dtStep ⟨0, 0, false, none⟩)
  (jsRound f.1, f.2)

theorem length_dropWhile_le {α : Type} (p : α → Bool) :
    ∀ l : List α, (l.dropWhile p).length ≤ l.length
  | [] => by simp
  | a :: l => by
    rw [List.dropWhile_cons]
    split
    · exact le_trans (length_dropWhile_le p l) (by simp)
    · simp

/-- The downtime sweep as the specification words it: skip to the next down
check (a transition into a down run, one incident, start recorded there);
if no later non-down check exists the run is open-ended and is charged up to
the last observed check; otherwise the run is charged up to the first
non-down check and the sweep continues from there. -/
def sweepSpec (l : List CheckRow) : ℚ × ℕ :=
  match hd : l.dropWhile (fun c => !isDownCheck c) with
  | [] => (0, 0)
  | d :: t =>
    match hr : (d :: t).dropWhile isDownCheck with
    | [] =>
      ((((((d :: t).getLast (by simp)).checked_at : ℚ)) - (d.checked_at : ℚ)) / 60000, 1)
    | u :: rest =>
      let p := sweepSpec (u :: rest)
      (((u.checked_at : ℚ) - (d.checked_at : ℚ)) / 60000 + p.1, p.2 + 1)
termination_by l.length
decreasing_by
  have h1 : (l.dropWhile (fun c => !isDownCheck c)).length ≤ l.length :=
    length_dropWhile_le (fun c => !isDownCheck c) l
  rw [hd] at h1
  have h3 : isDownCheck d = true := by
    have := List.head?_dropWhile_not (fun c => !isDownCheck c) l
    rw [hd] at this
    simp at this
    exact this
  have h4 : (d :: t).dropWhile isDownCheck = t.dropWhile isDownCheck := by
    simp [List.dropWhile_cons, h3]
  rw [h4] at hr
  have h5 : (t.dropWhile isDownCheck).length ≤ t.length :=
    length_dropWhile_le isDownCheck t
  rw [hr] at h5
  simp only [List.length_cons] at h1 h5 ⊢
  omega

theorem head_dropWhile_false {α : Type} (p : α → Bool) (l : List α) (a : α)
    (t : List α) (h : l.dropWhile p = a :: t) : p a = false := by
  have hh := List.head?_dropWhile_not p l
  rw [h] at hh
  simpa using hh

theorem getLast?_append_right {α : Type} (l₁ l₂ : List α) (h : l₂ ≠ []) :
    (l₁ ++ l₂).getLast? = l₂.getLast? :=
  List.getLast?_append_of_ne_nil l₁ h

theorem dtStep_noop_up (s : DTState) (c : CheckRow) (hc : isDownCheck c = false)
    (hs : s.isInDowntime = false) : dtStep s c = s := by
  simp [dtStep, hc, hs]

theorem dtStep_noop_down (s : DTState) (c : CheckRow) (hc : isDownCheck c = true)
    (hs : s.isInDowntime = true) : dtStep s c = s := by
  simp [dtStep, hc, hs]

theorem dtStep_open (s : DTState) (c : CheckRow) (hc : isDownCheck c = true)
    (hs : s.isInDowntime = false) :
    dtStep s c = ⟨s.total, s.incidents + 1, true, some c.checked_at⟩ := by
  simp [dtStep, hc, hs]

theorem dtStep_close (s : DTState) (c : CheckRow) (st : ℤ)
    (hc : isDownCheck c = false) (hs : s.isInDowntime = true)
    (hst : s.downtimeStart = some st) :
    dtStep s c = ⟨s.total + ((c.checked_at : ℚ) - (st : ℚ)) / 60000,
      s.incidents, false, some st⟩ := by
  simp [dtStep, hc, hs, hst]

theorem foldl_dtStep_nondown (l : List CheckRow) (s : DTState)
    (hAll : ∀ c ∈ l, isDownCheck c = false) (hs : s.isInDowntime = false) :
    l.foldl dtStep s = s := by
  induction l with
  | nil => rfl
  | cons c t ih =>
    rw [List.foldl_cons, dtStep_noop_up s c (hAll c (List.mem_cons_self c t)) hs]
    exact ih (fun x hx => hAll x (List.mem_cons_of_mem c hx))

theorem foldl_dtStep_down (l : List CheckRow) (s : DTState)
    (hAll : ∀ c ∈ l, isDownCheck c = true) (hs : s.isInDowntime = true) :
    l.foldl dtStep s = s := by
  induction l with
  | nil => rfl
  | cons c t ih =>
    rw [List.foldl_cons, dtStep_noop_down s c (hAll c (List.mem_cons_self c t)) hs]
    exact ih (fun x hx => hAll x (List.mem_cons_of_mem c hx))

theorem dtFinalize_congr (l₁ l₂ : List CheckRow) (s : DTState)
    (h : l₁.getLast? = l₂.getLast?) : dtFinalize l₁ s = dtFinalize l₂ s := by
  simp [dtFinalize, h]

theorem sweepSpec_nil_case (l : List CheckRow)
    (hd : l.dropWhile (fun c => !isDownCheck c) = []) : sweepSpec l = (0, 0) := by
  rw [sweepSpec.eq_def]
  split
  · rfl
  · rename_i d t heq
    rw [hd] at heq
    cases heq

theorem sweepSpec_open_case (l : List CheckRow) (d : CheckRow) (t : List CheckRow)
    (hd : l.dropWhile (fun c => !isDownCheck c) = d :: t)
    (hr : (d :: t).dropWhile isDownCheck = []) :
    sweepSpec l =
      (((((d :: t).getLast (by simp)).checked_at : ℚ) - (d.checked_at : ℚ)) / 60000, 1) := by
  rw [sweepSpec.eq_def]
  split
  · rename_i heq
    rw [hd] at heq
    cases heq
  · rename_i d' t' heq
    rw [hd] at heq
    cases heq
    split
    · rfl
    · rename_i u rest heq2
      rw [hr] at heq2
      cases heq2

theorem sweepSpec_closed_case (l : List CheckRow) (d u : CheckRow)
    (t rest : List CheckRow)
    (hd : l.dropWhile (fun c => !isDownCheck c) = d :: t)
    (hr : (d :: t).dropWhile isDownCheck = u :: rest) :
    sweepSpec l =
      (((u.checked_at : ℚ) - (d.checked_at : ℚ)) / 60000 + (sweepSpec (u :: rest)).1,
       (sweepSpec (u :: rest)).2 + 1) := by
  rw [sweepSpec.eq_def]
  split
  · rename_i heq
    rw [hd] at heq
    cases heq
  · rename_i d' t' heq
    rw [hd] at heq
    cases heq
    split
    · rename_i heq2
      rw [hr] at heq2
      cases heq2
    · rename_i u' rest' heq2
      rw [hr] at heq2
      cases heq2
      rfl

theorem dtSweep_equiv :
    ∀ (n : ℕ) (l : List CheckRow), l.length ≤ n →
      ∀ (T : ℚ) (N : ℕ) (st0 : Option ℤ),
        dtFinalize l (l.foldl dtStep ⟨T, N, false, st0⟩)
          = (T + (sweepSpec l).1, N + (sweepSpec l).2) := by
  intro n
  induction n with
  | zero =>
    intro l hl T N st0
    have hnil : l = [] := List.eq_nil_of_length_eq_zero (Nat.le_zero.mp hl)
    subst hnil
    rw [sweepSpec_nil_case [] rfl]
    simp [dtFinalize]
  | succ n ih =>
    intro l hl T N st0
    cases hd : l.dropWhile (fun c => !isDownCheck c) with
    | nil =>
      have hAll : ∀ c ∈ l, isDownCheck c = false := by
        intro c hc
        have := List.dropWhile_eq_nil_iff.mp hd c hc
        simpa using this
      rw [foldl_dtStep_nondown l _ hAll rfl, sweepSpec_nil_case l hd]
      simp [dtFinalize]
    | cons d t =>
      have hd_down : isDownCheck d = true := by
        have := head_dropWhile_false (fun c => !isDownCheck c) l d t hd
        simpa using this
      have hsplit : l.takeWhile (fun c => !isDownCheck c) ++ (d :: t) = l := by
        conv_rhs => rw [← List.takeWhile_append_dropWhile (fun c => !isDownCheck c) l]
        rw [hd]
      have hpre : ∀ c ∈ l.takeWhile (fun c => !isDownCheck c), isDownCheck c = false := by
        intro c hc
        have := List.mem_takeWhile_imp hc
        simpa using this
      have hfold1 : l.foldl dtStep ⟨T, N, false, st0⟩
          = (d :: t).foldl dtStep ⟨T, N, false, st0⟩ := by
        conv_lhs => rw [← hsplit]
        rw [List.foldl_append, foldl_dtStep_nondown _ _ hpre rfl]
      have hopen : dtStep ⟨T, N, false, st0⟩ d = ⟨T, N + 1, true, some d.checked_at⟩ :=
        dtStep_open _ _ hd_down rfl
      have hrun : ∀ c ∈ t.takeWhile isDownCheck, isDownCheck c = true :=
        fun c hc => List.mem_takeWhile_imp hc
      have htsplit : t.takeWhile isDownCheck ++ t.dropWhile isDownCheck = t :=
        List.takeWhile_append_dropWhile _ _
      have hdt : (d :: t).dropWhile isDownCheck = t.dropWhile isDownCheck := by
        rw [List.dropWhile_cons, if_pos hd_down]
      cases hr : t.dropWhile isDownCheck with
      | nil =>
        have ht_all : ∀ c ∈ t, isDownCheck c = true := List.dropWhile_eq_nil_iff.mp hr
        have hfold2 : (d :: t).foldl dtStep ⟨T, N, false, st0⟩
            = ⟨T, N + 1, true, some d.checked_at⟩ := by
          rw [List.foldl_cons, hopen, foldl_dtStep_down t _ ht_all rfl]
        rw [hfold1, hfold2, sweepSpec_open_case l d t hd (by rw [hdt, hr])]
        have hlast : l.getLast? = some ((d :: t).getLast (by simp)) := by
          conv_lhs => rw [← hsplit]
          rw [getLast?_append_right _ _ (by simp),
            List.getLast?_eq_getLast (d :: t) (by simp)]
        simp [dtFinalize, hlast]
      | cons u rest =>
        have hu_false : isDownCheck u = false := head_dropWhile_false isDownCheck t u rest hr
        have hfold2 : (d :: t).foldl dtStep ⟨T, N, false, st0⟩
            = (u :: rest).foldl dtStep
                ⟨T + ((u.checked_at : ℚ) - (d.checked_at : ℚ)) / 60000, N + 1, false,
                  some d.checked_at⟩ := by
          rw [List.foldl_cons, hopen]
          conv_lhs => rw [← htsplit, hr]
          rw [List.foldl_append,
            foldl_dtStep_down _ _ hrun rfl,
            List.foldl_cons,
            dtStep_close _ u d.checked_at hu_false rfl rfl,
            List.foldl_cons,
            dtStep_noop_up _ u hu_false rfl]
        have hlen : (u :: rest).length ≤ n := by
          have h1 : (d :: t).length ≤ l.length := by
            conv_rhs => rw [← hsplit]
            simp
          have h2 : (u :: rest).length ≤ t.length := by
            conv_rhs => rw [← htsplit]
            rw [hr]
            simp
          simp only [List.length_cons] at h1 h2 ⊢
          omega
        have hIH := ih (u :: rest) hlen
          (T + ((u.checked_at : ℚ) - (d.checked_at : ℚ)) / 60000) (N + 1)
          (some d.checked_at)
        have ht2 : t.takeWhile isDownCheck ++ (u :: rest) = t := by
          rw [← hr]
          exact htsplit
        have hlast_eq : l.getLast? = (u :: rest).getLast? := by
          conv_lhs => rw [← hsplit]
          rw [getLast?_append_right _ _ (by simp)]
          conv_lhs => rw [show d :: t = (d :: t.takeWhile isDownCheck) ++ (u :: rest) by
            rw [List.cons_append, ht2]]
          rw [getLast?_append_right _ _ (by simp)]
        rw [hfold1, hfold2, dtFinalize_congr l (u :: rest) _ hlast_eq, hIH,
          sweepSpec_closed_case l d u t rest hd (by rw [hdt]; exact hr)]
        simp only [Prod.mk.injEq]
        constructor
        · ring
        · omega

/-- Claim C4: `calculateDowntime` computes exactly the specification's
forward sweep — on each transition into a down run it counts one incident
and records the run's start; on the transition back to up it charges
`(up_check_time - down_run_start)` minutes; a run still open at the end is
charged up to the last check's time — and on checks at minute marks
`[0:up, 5:down, 10:down, 15:up, 20:down]` it returns 10 minutes of downtime
and 2 incidents. -/
theorem calculateDowntime_sweep :
    (∀ checks : List CheckRow,
      calculateDowntime checks = (jsRound (sweepSpec checks).1, (sweepSpec checks).2))
    ∧ calculateDowntime
        [⟨1, .up, none, 0⟩, ⟨1, .down, none, 300000⟩, ⟨1, .down, none, 600000⟩,
         ⟨1, .up, none, 900000⟩, ⟨1, .down, none, 1200000⟩] = (10, 2) := by
  have hmain : ∀ checks : List CheckRow,
      calculateDowntime checks = (jsRound (sweepSpec checks).1, (sweepSpec checks).2) := by
    intro checks
    have h := dtSweep_equiv checks.length checks le_rfl 0 0 none
    simp only [calculateDowntime, h, zero_add]
  refine ⟨hmain, ?_⟩
  rw [hmain]
  rw [sweepSpec_closed_case _ ⟨1, .down, none, 300000⟩ ⟨1, .up, none, 900000⟩
      [⟨1, .down, none, 600000⟩, ⟨1, .up, none, 900000⟩, ⟨1, .down, none, 1200000⟩]
      [⟨1, .down, none, 1200000⟩] (by decide) (by decide)]
  rw [sweepSpec_open_case _ ⟨1, .down, none, 1200000⟩ [] (by decide) (by decide)]
  simp only [List.getLast_singleton]
  norm_num [jsRound, Int.floor_eq_iff]

/-! ## Daily aggregation (`calculateStats`, statistics.js lines 7-233) -/

/-- JavaScript truthiness of a numeric response-time field: `null` and `0`
are falsy (`c.status === 'up' && c.response_time_ms`). -/
def rtTruthy (o : Option ℚ) : Bool :=
  match o with
  | none => false
  | some v => v ≠ 0

/-- JavaScript `Math.min(...l)` over a nonempty list (0 for the empty list, which the
caller never passes). -/
def listMinQ : List ℚ → ℚ
  | [] => 0
  | h :: t => t.foldl min h

/-- JavaScript `Math.max(...l)` over a nonempty list. -/
def listMaxQ : List ℚ → ℚ
  | [] => 0
  | h :: t => t.foldl max h

/-- JavaScript `Math.round(x * 100) / 100` — two-decimal rounding. -/
def round2 (q : ℚ) : ℚ := (jsRound (q * 100) : ℚ) / 100

/-- The SELECT of `calculateMonitorStats`: the monitor's checks on the
given date, ordered by `checked_at`. -/
def checksForDate (monitorId : ℕ) (date : ℤ) (checks : List CheckRow) : List CheckRow :=
  (checks.filter (fun c => decide (c.monitor_id = monitorId ∧ dateOf c.checked_at = date))).mergeSort
    (fun a b => decide (a.checked_at ≤ b.checked_at))

/-- Function `calculateMonitorStats` from statistics.js: `none` when the monitor has
no checks that date (no row written); otherwise the freshly computed
`uptime_stats` row — up/down counts, two-decimal uptime percentage,
response-time stats over up checks with truthy response times
(average `Math.round`ed), and the downtime sweep. -/
def calculateMonitorStats (monitorId : ℕ) (date : ℤ) (checks : List CheckRow) :
    Option StatRow :=
  let cs := checksForDate monitorId date checks
  if cs.isEmpty then none
  else
    let totalChecks := cs.length
    let upChecks := (cs.filter (fun c => decide (c.status = CStatus.up))).length
    let downChecks := (cs.filter (fun c => decide (c.status = CStatus.down))).length
    let uptimePercentage : ℚ :=
      if 0 < totalChecks then (upChecks : ℚ) / (totalChecks : ℚ) * 100 else 0
    let successfulChecks :=
      cs.filter (fun c => decide (c.status = CStatus.up) && rtTruthy c.response_time_ms)
    let responseTimes := successfulChecks.map (fun c => c.response_time_ms.getD 0)
    some
      { monitor_id := monitorId
        date := date
        total_checks := totalChecks
        up_checks := upChecks
        down_checks := downChecks
        uptime_percentage := round2 uptimePercentage
        avg_response_time :=
          if successfulChecks.isEmpty then 0
          else (jsRound (responseTimes.sum / (responseTimes.length : ℚ)) : ℚ)
        min_response_time := if successfulChecks.isEmpty then 0 else listMinQ responseTimes
        max_response_time := if successfulChecks.isEmpty then 0 else listMaxQ responseTimes
        downtime_duration := (calculateDowntime cs).1
        downtime_incidents := (calculateDowntime cs).2 }

/-- The whole durable state the aggregator touches. -/
structure SysState where
  monitors : List Monitor
  checks : List CheckRow
  stats : List StatRow
deriving DecidableEq

/-- SQL `INSERT OR REPLACE INTO uptime_stats` keyed on `(monitor_id, date)`:
drop any row with the same key, then insert the new row. -/
def upsertStat (row : StatRow) (stats : List StatRow) : List StatRow :=
  (stats.filter (fun r => !(decide (r.monitor_id = row.monitor_id ∧ r.date = row.date)))) ++ [row]

/-- One iteration of the per-monitor loop of `calculateStats`:
`calculateMonitorStats` either writes nothing (no checks that date) or
upserts the freshly computed row. -/
def imStep (date : ℤ) (checks : List CheckRow) (acc : List StatRow) (mid : ℕ) :
    List StatRow :=
  match calculateMonitorStats mid date checks with
  | none => acc
  | some row => upsertStat row acc

/-- The per-monitor loop of `calculateStats`: the SELECT yields the ids of
the active monitors and `calculateMonitorStats` upserts a row for each id
that has checks on the date. -/
def insertMonitorRows (date : ℤ) (checks : List CheckRow) (ids : List ℕ)
    (stats : List StatRow) : List StatRow :=
  ids.foldl (imStep date checks) stats

theorem imStep_none (date : ℤ) (checks : List CheckRow) (acc : List StatRow)
    (mid : ℕ) (hc : calculateMonitorStats mid date checks = none) :
    imStep date checks acc mid = acc := by
  simp [imStep, hc]

theorem imStep_some (date : ℤ) (checks : List CheckRow) (acc : List StatRow)
    (mid : ℕ) (row : StatRow) (hc : calculateMonitorStats mid date checks = some row) :
    imStep date checks acc mid = upsertStat row acc := by
  simp [imStep, hc]

/-- SQL `AVG(col)`: `NULL` (here `none`) over an empty set. -/
def sqlAvg (l : List ℚ) : Option ℚ :=
  if l.isEmpty then none else some (l.sum / (l.length : ℚ))

/-- JavaScript `x || d` for a nullable number `x`: `null` and `0` are
falsy. -/
def jsOr (o : Option ℚ) (d : ℚ) : ℚ :=
  match o with
  | none => d
  | some v => if v = 0 then d else v

/-- The body of the `updateMonitorSummaryStats` loop for one monitor:
average `uptime_percentage` over the trailing 30-day and 7-day windows of
`uptime_stats` rows (100 when the SQL AVG is NULL), average
`avg_response_time` over the 30-day window (0 when NULL), round, and write
the summary fields together with `stats_updated_at`. -/
def updateMonitorFn (today : ℤ) (stats : List StatRow) (m : Monitor) : Monitor :=
  let w30 := stats.filter (fun r => decide (r.monitor_id = m.id ∧ today - 30 ≤ r.date))
  let w7 := stats.filter (fun r => decide (r.monitor_id = m.id ∧ today - 7 ≤ r.date))
  { m with
      uptime_30d := round2 (jsOr (sqlAvg (w30.map (fun r => r.uptime_percentage))) 100)
      uptime_7d := round2 (jsOr (sqlAvg (w7.map (fun r => r.uptime_percentage))) 100)
      avg_response_time_30d :=
        (jsRound (jsOr (sqlAvg (w30.map (fun r => r.avg_response_time))) 0) : ℚ)
      stats_updated_at := some today }

/-- Function `updateMonitorSummaryStats` from statistics.js: update every active
monitor's summary fields; inactive monitors are untouched. -/
def updateMonitorSummaryStats (today : ℤ) (st : SysState) : SysState :=
  { st with
      monitors := st.monitors.map (fun m =>
        if m.is_active then updateMonitorFn today st.stats m else m) }

/-- Function `calculateStats` from statistics.js: skip everything when any
`uptime_stats` row for today exists; return early (before cleanup and
summary update) when there is no active monitor; otherwise recompute a row
per active monitor, delete rows older than 365 days, and refresh the
monitor summary fields. -/
def calculateStats (today : ℤ) (st : SysState) : SysState :=
  if 0 < (st.stats.filter (fun r => decide (r.date = today))).length then st
  else
    let activeIds := (st.monitors.filter (fun m => m.is_active)).map (fun m => m.id)
    if activeIds.isEmpty then st
    else
      let stats1 := insertMonitorRows today st.checks activeIds st.stats
      let stats2 := stats1.filter (fun r => !(decide (r.date < today - 365)))
      updateMonitorSummaryStats today { st with stats := stats2 }

theorem updateMonitorFn_is_active (today : ℤ) (stats : List StatRow) (m : Monitor) :
    (updateMonitorFn today stats m).is_active = m.is_active := rfl

theorem updateMonitorFn_id (today : ℤ) (stats : List StatRow) (m : Monitor) :
    (updateMonitorFn today stats m).id = m.id := rfl

theorem summary_stats_eq (today : ℤ) (st : SysState) :
    (updateMonitorSummaryStats today st).stats = st.stats := rfl

theorem summary_checks_eq (today : ℤ) (st : SysState) :
    (updateMonitorSummaryStats today st).checks = st.checks := rfl

theorem calculateMonitorStats_fields (mid : ℕ) (d : ℤ) (checks : List CheckRow)
    (row : StatRow) (h : calculateMonitorStats mid d checks = some row) :
    row.date = d ∧ row.monitor_id = mid := by
  simp only [calculateMonitorStats] at h
  split at h
  · cases h
  · injection h with h2
    subst h2
    exact ⟨rfl, rfl⟩

theorem guard_iff (l : List StatRow) (today : ℤ) :
    0 < (l.filter (fun r => decide (r.date = today))).length ↔
      ∃ r ∈ l, r.date = today := by
  rw [List.length_pos]
  constructor
  · intro h
    rcases List.exists_mem_of_ne_nil _ h with ⟨r, hr⟩
    rcases List.mem_filter.mp hr with ⟨hmem, hp⟩
    exact ⟨r, hmem, by simpa using hp⟩
  · rintro ⟨r, hmem, hdate⟩
    intro hnil
    have := List.filter_eq_nil_iff.mp hnil r hmem
    simp [hdate] at this

theorem insertMonitorRows_cons (d : ℤ) (checks : List CheckRow) (mid : ℕ)
    (ids : List ℕ) (stats : List StatRow) :
    insertMonitorRows d checks (mid :: ids) stats
      = insertMonitorRows d checks ids (imStep d checks stats mid) := rfl

theorem insertMonitorRows_none (d : ℤ) (checks : List CheckRow) :
    ∀ (ids : List ℕ) (stats : List StatRow),
      (∀ mid ∈ ids, calculateMonitorStats mid d checks = none) →
      insertMonitorRows d checks ids stats = stats
  | [], stats, _ => rfl
  | mid :: ids, stats, h => by
    rw [insertMonitorRows_cons,
      imStep_none d checks stats mid (h mid (List.mem_cons_self mid ids))]
    exact insertMonitorRows_none d checks ids stats
      (fun x hx => h x (List.mem_cons_of_mem mid hx))

theorem insertMonitorRows_exists (d : ℤ) (checks : List CheckRow) :
    ∀ (ids : List ℕ) (stats : List StatRow),
      (∃ r ∈ insertMonitorRows d checks ids stats, r.date = d) ↔
        ((∃ r ∈ stats, r.date = d) ∨
          ∃ mid ∈ ids, (calculateMonitorStats mid d checks).isSome = true)
  | [], stats => by simp [insertMonitorRows]
  | mid :: ids, stats => by
    rw [insertMonitorRows_cons]
    cases hc : calculateMonitorStats mid d checks with
    | none =>
      rw [imStep_none d checks stats mid hc,
        insertMonitorRows_exists d checks ids stats]
      simp [hc]
    | some row =>
      rw [imStep_some d checks stats mid row hc,
        insertMonitorRows_exists d checks ids (upsertStat row stats)]
      have hrow : row.date = d := (calculateMonitorStats_fields mid d checks row hc).1
      apply iff_of_true
      · left
        exact ⟨row, by simp [upsertStat], hrow⟩
      · right
        exact ⟨mid, List.mem_cons_self _ _, by simp [hc]⟩

theorem activeIds_map_update (today : ℤ) (stats : List StatRow) :
    ∀ ms : List Monitor,
      ((ms.map (fun m => if m.is_active then updateMonitorFn today stats m else m)).filter
        (fun m => m.is_active)).map (fun m => m.id)
      = (ms.filter (fun m => m.is_active)).map (fun m => m.id)
  | [] => rfl
  | m :: ms => by
    by_cases ha : m.is_active = true <;>
      simp [ha, updateMonitorFn_is_active, updateMonitorFn_id,
        activeIds_map_update today stats ms]

theorem calculateStats_skip (today : ℤ) (st : SysState)
    (h : 0 < (st.stats.filter (fun r => decide (r.date = today))).length) :
    calculateStats today st = st := by
  simp only [calculateStats, if_pos h]

theorem calculateStats_noActive (today : ℤ) (st : SysState)
    (h1 : ¬ 0 < (st.stats.filter (fun r => decide (r.date = today))).length)
    (h2 : ((st.monitors.filter (fun m => m.is_active)).map (fun m => m.id)).isEmpty = true) :
    calculateStats today st = st := by
  simp only [calculateStats, if_neg h1, if_pos h2]

theorem calculateStats_run (today : ℤ) (st : SysState)
    (h1 : ¬ 0 < (st.stats.filter (fun r => decide (r.date = today))).length)
    (h2 : ¬ ((st.monitors.filter (fun m => m.is_active)).map (fun m => m.id)).isEmpty = true) :
    calculateStats today st =
      updateMonitorSummaryStats today
        { st with stats :=
            (insertMonitorRows today st.checks
              ((st.monitors.filter (fun m => m.is_active)).map (fun m => m.id))
              st.stats).filter (fun r => !(decide (r.date < today - 365))) } := by
  simp only [calculateStats, if_neg h1, if_neg h2]

/-- Claim C5: the daily aggregation is idempotent on the `uptime_stats`
table — running `calculateStats` twice for the same date on unchanged input
leaves exactly the rows produced by the first run (the rerun is skipped via
the row-existence check for the date, or recomputes the identical rows when
the first run wrote none). -/
theorem calculateStats_idempotent (today : ℤ) (st : SysState) :
    (calculateStats today (calculateStats today st)).stats
      = (calculateStats today st).stats := by
  by_cases hG : 0 < (st.stats.filter (fun r => decide (r.date = today))).length
  · rw [calculateStats_skip today st hG, calculateStats_skip today st hG]
  · by_cases hA : ((st.monitors.filter (fun m => m.is_active)).map
        (fun m => m.id)).isEmpty = true
    · rw [calculateStats_noActive today st hG hA, calculateStats_noActive today st hG hA]
    · rw [calculateStats_run today st hG hA]
      set ids := (st.monitors.filter (fun m => m.is_active)).map (fun m => m.id)
        with hids
      set stats1 := insertMonitorRows today st.checks ids st.stats with hstats1def
      set stats2 := stats1.filter (fun r => !(decide (r.date < today - 365)))
        with hstats2def
      set s1 := updateMonitorSummaryStats today { st with stats := stats2 } with hs1
      have hs1stats : s1.stats = stats2 := rfl
      have hs1checks : s1.checks = st.checks := rfl
      have hs1ids : (s1.monitors.filter (fun m => m.is_active)).map (fun m => m.id)
          = ids := by
        rw [hs1]
        exact activeIds_map_update today stats2 st.monitors
      by_cases hT : ∃ r ∈ stats2, r.date = today
      · rw [calculateStats_skip today s1 ((guard_iff s1.stats today).mpr hT)]
      · have hT1 : ¬ ∃ r ∈ stats1, r.date = today := by
          rintro ⟨r, hr, hdate⟩
          refine hT ⟨r, List.mem_filter.mpr ⟨hr, ?_⟩, hdate⟩
          rw [hdate]
          simp
        have hNoneAll : ∀ mid ∈ ids, calculateMonitorStats mid today st.checks = none := by
          intro mid hm
          cases hc : calculateMonitorStats mid today st.checks with
          | none => rfl
          | some row =>
            exfalso
            apply hT1
            rw [hstats1def, insertMonitorRows_exists]
            right
            exact ⟨mid, hm, by simp [hc]⟩
        have hstats1eq : stats1 = st.stats := by
          rw [hstats1def]
          exact insertMonitorRows_none today st.checks ids st.stats hNoneAll
        have hG2 : ¬ 0 < (s1.stats.filter (fun r => decide (r.date = today))).length := by
          rw [guard_iff]
          exact hT
        have hA2 : ¬ ((s1.monitors.filter (fun m => m.is_active)).map
            (fun m => m.id)).isEmpty = true := by
          rw [hs1ids]
          exact hA
        rw [calculateStats_run today s1 hG2 hA2, summary_stats_eq, hs1ids, hs1checks,
          hs1stats, insertMonitorRows_none today st.checks ids stats2 hNoneAll,
          hstats2def, hstats1eq, List.filter_filter]
        simp

/-- Claim C10: an active monitor with no `uptime_stats` row in the trailing
30-day window (hence none in the 7-day window either) gets
`uptime_7d = 100`, `uptime_30d = 100` and `avg_response_time_30d = 0`
written by the summary update: the SQL `AVG` over the empty window is NULL,
and `avg_uptime || 100` / `avg_response_time || 0` turn that into 100% and
0 ms — absent history reads as perfect uptime. -/
theorem updateMonitorSummary_no_history (today : ℤ) (st : SysState) (m : Monitor)
    (hm : m ∈ st.monitors) (hactive : m.is_active = true)
    (hnone : ∀ r ∈ st.stats, r.monitor_id = m.id → r.date < today - 30) :
    updateMonitorFn today st.stats m ∈ (updateMonitorSummaryStats today st).monitors
    ∧ (updateMonitorFn today st.stats m).uptime_7d = 100
    ∧ (updateMonitorFn today st.stats m).uptime_30d = 100
    ∧ (updateMonitorFn today st.stats m).avg_response_time_30d = 0 := by
  have hw30 : st.stats.filter
      (fun r => decide (r.monitor_id = m.id ∧ today - 30 ≤ r.date)) = [] := by
    rw [List.filter_eq_nil_iff]
    intro r hr
    simp only [decide_eq_true_eq, not_and]
    intro hid hdate
    have := hnone r hr hid
    omega
  have hw7 : st.stats.filter
      (fun r => decide (r.monitor_id = m.id ∧ today - 7 ≤ r.date)) = [] := by
    rw [List.filter_eq_nil_iff]
    intro r hr
    simp only [decide_eq_true_eq, not_and]
    intro hid hdate
    have := hnone r hr hid
    omega
  refine ⟨?_, ?_, ?_, ?_⟩
  · simp only [updateMonitorSummaryStats]
    have hmem := List.mem_map_of_mem
      (fun m => if m.is_active then updateMonitorFn today st.stats m else m) hm
    simpa [hactive] using hmem
  · simp only [updateMonitorFn, hw7, List.map_nil, sqlAvg, jsOr]
    norm_num [round2, jsRound, Int.floor_eq_iff]
  · simp only [updateMonitorFn, hw30, List.map_nil, sqlAvg, jsOr]
    norm_num [round2, jsRound, Int.floor_eq_iff]
  · simp only [updateMonitorFn, hw30, List.map_nil, sqlAvg, jsOr]
    norm_num [jsRound, Int.floor_eq_iff]

theorem updateMonitorSummary_no_history_witness :
    (updateMonitorFn 0 [⟨1, -40, 1, 1, 0, 100, 50, 50, 50, 0, 0⟩]
        ⟨1, "m", "http", true, none, 30, 0, 0, 0, none⟩).uptime_7d = 100
    ∧ (updateMonitorFn 0 [⟨1, -40, 1, 1, 0, 100, 50, 50, 50, 0, 0⟩]
        ⟨1, "m", "http", true, none, 30, 0, 0, 0, none⟩).uptime_30d = 100
    ∧ (updateMonitorFn 0 [⟨1, -40, 1, 1, 0, 100, 50, 50, 50, 0, 0⟩]
        ⟨1, "m", "http", true, none, 30, 0, 0, 0, none⟩).avg_response_time_30d = 0 :=
  have h := updateMonitorSummary_no_history 0
    ⟨[⟨1, "m", "http", true, none, 30, 0, 0, 0, none⟩], [],
      [⟨1, -40, 1, 1, 0, 100, 50, 50, 50, 0, 0⟩]⟩
    ⟨1, "m", "http", true, none, 30, 0, 0, 0, none⟩
    (by simp) rfl
    (by
      intro r hr hid
      rw [List.mem_singleton] at hr
      subst hr
      decide)
  ⟨h.2.1, h.2.2.1, h.2.2.2⟩
